import Mathlib

/-!
Verification of the novaa finance app's pure computation helpers
(`calculate_tax` and `get_budget_summary` from `app.py`).

Numeric arithmetic of the source (Python floats) is modelled exactly over ℚ;
all decimal literals in the source are exact rationals. Python dicts preserve
insertion order, so a dict is modelled as an association list in source order.
-/

namespace Novaa

/-- Result record returned by `calculate_tax` (the Python dict at
`app.py:290-297`), one field per key. -/
structure TaxResult where
  annual_income : ℚ
  tax : ℚ
  cess : ℚ
  total_tax : ℚ
  monthly_tax : ℚ
  effective_rate : ℚ
  deriving Repr, DecidableEq

/-- The if/elif marginal-bracket chain of `calculate_tax` (`app.py:274-285`),
as a function of the annual income. -/
def tax_slab (annual_income : ℚ) : ℚ :=
  if annual_income ≤ 300000 then 0
  else if annual_income ≤ 600000 then (annual_income - 300000) * 0.05
  else if annual_income ≤ 900000 then 15000 + (annual_income - 600000) * 0.10
  else if annual_income ≤ 1200000 then 45000 + (annual_income - 900000) * 0.15
  else if annual_income ≤ 1500000 then 90000 + (annual_income - 1200000) * 0.20
  else 150000 + (annual_income - 1500000) * 0.30

/-- `calculate_tax(income, user_type)` from `app.py:269-298`. The
`user_type` parameter is kept because the source declares it, even though
the body never reads it. -/
def calculate_tax (income : ℚ) (user_type : String) : TaxResult :=
  let annual_income := income * 12
  let tax := tax_slab annual_income
  let cess := tax * 0.04
  let total_tax := tax + cess
  { annual_income := annual_income
    tax := tax
    cess := cess
    total_tax := total_tax
    monthly_tax := total_tax / 12
    effective_rate := if annual_income > 0 then total_tax / annual_income * 100 else 0 }

/-- `get_budget_summary(user_type, income)` from `app.py:230-247`: a fixed
fractional split chosen by the category, scaled by the income when the
income is positive. -/
def get_budget_summary (user_type : String) (income : ℚ) : List (String × ℚ) :=
  let budget : List (String × ℚ) :=
    if user_type = "Student" then
      [("Essentials", 0.50), ("Education", 0.30), ("Savings", 0.20)]
    else
      [("Essentials", 0.40), ("Savings", 0.20), ("Investments", 0.20), ("Discretionary", 0.20)]
  if income > 0 then budget.map (fun p => (p.1, p.2 * income)) else budget

/-- The tax computation performed by `tax_calculator_page` (`app.py:622-632`):
the page reads the three Section-80C deduction inputs (EPF/PPF, ELSS, LIC)
but calls `calculate_tax(monthly_income, user_type)` without passing them,
and only when the monthly income is positive. -/
def tax_page_result (monthly_income pf elss lic : ℚ) (user_type : String) :
    Option TaxResult :=
  if monthly_income > 0 then some (calculate_tax monthly_income user_type) else none

/-- C1: for every monthly income m ≥ 0, `calculate_tax` computes the base tax
by the six-tier marginal schedule on the annual income a = 12·m, with every
bracket boundary inclusive on the upper bound. -/
theorem calculate_tax_bracket_schedule (m : ℚ) (u : String) (h : 0 ≤ m) :
    (12 * m ≤ 300000 → (calculate_tax m u).tax = 0) ∧
    (300000 < 12 * m → 12 * m ≤ 600000 →
      (calculate_tax m u).tax = (12 * m - 300000) * 0.05) ∧
    (600000 < 12 * m → 12 * m ≤ 900000 →
      (calculate_tax m u).tax = 15000 + (12 * m - 600000) * 0.10) ∧
    (900000 < 12 * m → 12 * m ≤ 1200000 →
      (calculate_tax m u).tax = 45000 + (12 * m - 900000) * 0.15) ∧
    (1200000 < 12 * m → 12 * m ≤ 1500000 →
      (calculate_tax m u).tax = 90000 + (12 * m - 1200000) * 0.20) ∧
    (1500000 < 12 * m →
      (calculate_tax m u).tax = 150000 + (12 * m - 1500000) * 0.30) := by
  simp only [calculate_tax, tax_slab]
  refine ⟨?_, ?_, ?_, ?_, ?_, ?_⟩ <;> intros <;> split_ifs <;> first | linarith | ring_nf

/-- Witness for `calculate_tax_bracket_schedule` at m = 50000 (annual 600000,
the top of the 5% bracket): the base tax is (600000 − 300000) × 0.05. -/
theorem calculate_tax_bracket_schedule_witness :
    (calculate_tax 50000 "Professional").tax = (12 * 50000 - 300000) * 0.05 :=
  (calculate_tax_bracket_schedule 50000 "Professional" (by norm_num)).2.1
    (by norm_num) (by norm_num)

/-- C3: for every monthly income m ≥ 0, the returned `cess` equals
base tax × 0.04 (so cess is 0 exactly when base tax is 0), `total_tax`
equals base tax + cess, and `monthly_tax` equals total_tax ÷ 12. -/
theorem calculate_tax_cess_total_monthly (m : ℚ) (u : String) (h : 0 ≤ m) :
    (calculate_tax m u).cess = (calculate_tax m u).tax * 0.04 ∧
    ((calculate_tax m u).cess = 0 ↔ (calculate_tax m u).tax = 0) ∧
    (calculate_tax m u).total_tax = (calculate_tax m u).tax + (calculate_tax m u).cess ∧
    (calculate_tax m u).monthly_tax = (calculate_tax m u).total_tax / 12 := by
  refine ⟨?_, ?_, ?_, ?_⟩
  · simp only [calculate_tax]
  · simp only [calculate_tax]
    constructor
    · intro hz
      rcases mul_eq_zero.mp hz with h0 | h0
      · exact h0
      · norm_num at h0
    · intro hz
      rw [hz]; ring
  · simp only [calculate_tax]
  · simp only [calculate_tax]

/-- Witness for `calculate_tax_cess_total_monthly` at m = 40000. -/
theorem calculate_tax_cess_total_monthly_witness :
    (calculate_tax 40000 "Student").cess = (calculate_tax 40000 "Student").tax * 0.04 :=
  (calculate_tax_cess_total_monthly 40000 "Student" (by norm_num)).1

/-- C4: for every monthly income m ≥ 0, `effective_rate` equals
total_tax ÷ annual income × 100 when the annual income is positive, and 0
when the annual income is 0; `calculate_tax` is total on this domain. -/
theorem calculate_tax_effective_rate (m : ℚ) (u : String) (h : 0 ≤ m) :
    (0 < 12 * m →
      (calculate_tax m u).effective_rate =
        (calculate_tax m u).total_tax / (12 * m) * 100) ∧
    (12 * m = 0 → (calculate_tax m u).effective_rate = 0) := by
  constructor
  · intro hpos
    simp only [calculate_tax]
    rw [if_pos (by linarith)]
    rw [show m * 12 = 12 * m by ring]
  · intro hzero
    simp only [calculate_tax]
    rw [if_neg (by intro hc; linarith)]

/-- Witness for `calculate_tax_effective_rate` at m = 0: the effective rate
is 0 with no division by zero. -/
theorem calculate_tax_effective_rate_witness :
    (calculate_tax 0 "Student").effective_rate = 0 :=
  (calculate_tax_effective_rate 0 "Student" (by norm_num)).2 (by norm_num)

/-- C5: `calculate_tax` at the bracket-boundary monthly incomes 300000/12,
600000/12, 900000/12, 1200000/12 and 1500000/12 returns pre-cess base tax
0, 15000, 45000, 90000 and 150000 respectively. -/
theorem calculate_tax_boundaries :
    (calculate_tax (300000 / 12) "Professional").tax = 0 ∧
    (calculate_tax (600000 / 12) "Professional").tax = 15000 ∧
    (calculate_tax (900000 / 12) "Professional").tax = 45000 ∧
    (calculate_tax (1200000 / 12) "Professional").tax = 90000 ∧
    (calculate_tax (1500000 / 12) "Professional").tax = 150000 := by
  refine ⟨?_, ?_, ?_, ?_, ?_⟩ <;> norm_num [calculate_tax, tax_slab]

/-- C7: for all monthly income m ≥ 0, the `annual_income` field returned by
`calculate_tax` equals 12·m exactly. -/
theorem calculate_tax_annual_income (m : ℚ) (u : String) (h : 0 ≤ m) :
    (calculate_tax m u).annual_income = 12 * m := by
  simp only [calculate_tax]
  ring

/-- Witness for `calculate_tax_annual_income` at m = 2500. -/
theorem calculate_tax_annual_income_witness :
    (calculate_tax 2500 "Student").annual_income = 12 * 2500 :=
  calculate_tax_annual_income 2500 "Student" (by norm_num)

/-- The bracket chain is monotone in the annual income. -/
lemma tax_slab_mono (a b : ℚ) (hab : a ≤ b) : tax_slab a ≤ tax_slab b := by
  simp only [tax_slab]
  split_ifs <;> linarith

/-- C2: the result of `calculate_tax` depends only on the income argument:
equal incomes give equal records whatever the `user_type`, and the tax page
never passes the 80C deduction inputs (EPF/PPF, ELSS, LIC) into the
computation. -/
theorem calculate_tax_income_only (income pf1 elss1 lic1 pf2 elss2 lic2 : ℚ)
    (u1 u2 : String) :
    calculate_tax income u1 = calculate_tax income u2 ∧
    tax_page_result income pf1 elss1 lic1 u1 = tax_page_result income pf2 elss2 lic2 u2 :=
  ⟨rfl, rfl⟩

/-- C6: the base tax (and hence the total tax) computed by `calculate_tax`
is monotonically non-decreasing in the monthly income. -/
theorem calculate_tax_monotone (m1 m2 : ℚ) (u : String) (h0 : 0 ≤ m1) (h12 : m1 ≤ m2) :
    (calculate_tax m1 u).tax ≤ (calculate_tax m2 u).tax ∧
    (calculate_tax m1 u).total_tax ≤ (calculate_tax m2 u).total_tax := by
  have hs : tax_slab (m1 * 12) ≤ tax_slab (m2 * 12) :=
    tax_slab_mono (m1 * 12) (m2 * 12) (by linarith)
  simp only [calculate_tax]
  exact ⟨hs, by linarith⟩

/-- Witness for `calculate_tax_monotone` at m1 = 40000, m2 = 90000. -/
theorem calculate_tax_monotone_witness :
    (calculate_tax 40000 "Student").tax ≤ (calculate_tax 90000 "Student").tax :=
  (calculate_tax_monotone 40000 90000 "Student" (by norm_num) (by norm_num)).1

/-- C8: with income 0, `get_budget_summary` returns the fixed fractional
split for the category — Student: Essentials 0.50, Education 0.30,
Savings 0.20; Professional: Essentials 0.40, Savings 0.20,
Investments 0.20, Discretionary 0.20 — and both splits sum to 1. -/
theorem get_budget_summary_zero_income :
    get_budget_summary "Student" 0 =
      [("Essentials", 0.50), ("Education", 0.30), ("Savings", 0.20)] ∧
    get_budget_summary "Professional" 0 =
      [("Essentials", 0.40), ("Savings", 0.20), ("Investments", 0.20), ("Discretionary", 0.20)] ∧
    ((get_budget_summary "Student" 0).map Prod.snd).sum = 1 ∧
    ((get_budget_summary "Professional" 0).map Prod.snd).sum = 1 := by
  have hps : ¬("Professional" = "Student") := by decide
  refine ⟨?_, ?_, ?_, ?_⟩ <;> simp only [get_budget_summary, hps] <;> norm_num

/-- C9: with positive income, `get_budget_summary` returns for each category
the absolute amount fraction × income; for Student with income 100000 this
is Essentials 50000, Education 30000, Savings 20000, summing to 100000. -/
theorem get_budget_summary_scales (u : String) (income : ℚ) (h : 0 < income) :
    get_budget_summary u income =
      (get_budget_summary u 0).map (fun p => (p.1, p.2 * income)) ∧
    get_budget_summary "Student" 100000 =
      [("Essentials", 50000), ("Education", 30000), ("Savings", 20000)] ∧
    ((get_budget_summary "Student" 100000).map Prod.snd).sum = 100000 := by
  refine ⟨?_, by norm_num [get_budget_summary], by norm_num [get_budget_summary]⟩
  simp only [get_budget_summary]
  rw [if_pos h, if_neg (lt_irrefl (0 : ℚ))]

/-- Witness for `get_budget_summary_scales` at income 100000: the Student
amounts are the fractions scaled by 100000. -/
theorem get_budget_summary_scales_witness :
    get_budget_summary "Student" 100000 =
      [("Essentials", 50000), ("Education", 30000), ("Savings", 20000)] :=
  (get_budget_summary_scales "Student" 100000 (by norm_num)).2.1

/-- C10: every `user_type` other than exactly "Student" gets the
Professional/default split; with income 0 that split is Essentials 0.40,
Savings 0.20, Investments 0.20, Discretionary 0.20. -/
theorem get_budget_summary_default (u : String) (income : ℚ) (h : u ≠ "Student") :
    get_budget_summary u income = get_budget_summary "Professional" income ∧
    get_budget_summary u 0 =
      [("Essentials", 0.40), ("Savings", 0.20), ("Investments", 0.20), ("Discretionary", 0.20)] := by
  constructor
  · simp only [get_budget_summary]
    rw [if_neg h, if_neg (by decide : ¬("Professional" = "Student"))]
  · simp only [get_budget_summary]
    rw [if_neg h, if_neg (lt_irrefl (0 : ℚ))]

/-- Witness for `get_budget_summary_default` with the category "Retired". -/
theorem get_budget_summary_default_witness :
    get_budget_summary "Retired" 5 = get_budget_summary "Professional" 5 :=
  (get_budget_summary_default "Retired" 5 (by decide)).1

end Novaa
